import Mathlib

/-!
Shallow embedding of `src/include/cantera/transport/UnityLewisTransport.h`
(class `Cantera::UnityLewisTransport`).

Modelling conventions:
* `double` values are modelled as `ℚ` (the claims are about value equality
  and broadcast structure, not rounding).
* The externally-owned collaborators (the `ThermoPhase` pointed to by
  `m_thermo`, and the `MixTransport` base's thermal conductivity) are
  modelled as read-only input fields of the state.
* Each C++ method taking the out-parameter `double* const d` is embedded as
  a state-passing function: it receives the object state and the buffer
  contents, and returns the (possibly updated) object state, the buffer
  contents after the call, and an `Except` value recording whether the call
  returned normally (`.ok ()`) or threw (`.error e`).
* The C++ `for (size_t k = 0; k < m_nsp; k++) d[k] = Dm;` loop is embedded
  by `broadcastWrite`: it overwrites the first `m_nsp` entries of the buffer
  list.  Writes past the end of the buffer are undefined behaviour in the
  source (the caller must supply a buffer of length `m_nsp`); the embedding
  simply has no cell to write there, and all theorems about buffer contents
  carry the matching-size precondition where it matters.
-/

namespace Cantera

/-- The thermodynamic phase state collaborator (`ThermoPhase`), reduced to the
two quantities this core reads through `m_thermo`: `density()` and
`cp_mass()` (the mass-specific heat capacity). -/
structure ThermoPhase where
  density : ℚ
  cp_mass : ℚ
  deriving Repr, DecidableEq

/-- The error type of the core.  The only throw in the source is
`throw NotImplementedError("UnityLewisTransport::getMixDiffCoeffsMole")`,
so the single error kind carries the method name string. -/
inductive CanteraError where
  | NotImplementedError (method : String)
  deriving Repr, DecidableEq

/-- State of a `UnityLewisTransport` object as far as this core reads it:
the phase-state pointer `m_thermo`, the species count `m_nsp`, and the value
returned by the inherited `MixTransport::thermalConductivity()` (external
collaborator, modelled as an input value `m_lambda`). -/
structure UnityLewisTransport where
  m_thermo : ThermoPhase
  m_nsp : ℕ
  m_lambda : ℚ
  deriving Repr, DecidableEq

/-- Modelled from the spec: `thermalConductivity() -> float` is provided by
the external mixture-transport base (`MixTransport`, not part of `src/`);
its current value is carried by the field `m_lambda`. -/
def UnityLewisTransport.thermalConductivity (t : UnityLewisTransport) : ℚ :=
  t.m_lambda

/-- Embedding of the loop `for (size_t k = 0; k < n; k++) d[k] = Dm;`:
overwrite the first `n` entries of the buffer with `Dm`, leaving the rest
unchanged.  (A write at an index `k ≥ d.length` would be out of bounds in
the source; here there is simply no cell to write.) -/
def broadcastWrite (Dm : ℚ) : ℕ → List ℚ → List ℚ
  | 0, d => d
  | _ + 1, [] => []
  | n + 1, _ :: xs => Dm :: broadcastWrite Dm n xs

/-- Embedding of `UnityLewisTransport::getMixDiffCoeffs(double* const d)`:
computes `Dm = thermalConductivity() / (m_thermo->density() * m_thermo->cp_mass())`,
declares the local literal table `arr` (declared `int arr[53]` in the source,
initialised with the 53 literals below, and never read afterwards), then
writes `d[k] = Dm` for every `k < m_nsp`.  Returns the unchanged object
state, the buffer after the loop, and normal termination. -/
def UnityLewisTransport.getMixDiffCoeffs (t : UnityLewisTransport) (d : List ℚ) :
    UnityLewisTransport × List ℚ × Except CanteraError Unit :=
  let Dm : ℚ := t.thermalConductivity / (t.m_thermo.density * t.m_thermo.cp_mass)
  let arr : List ℚ := [
    0.27443569898605347,
    0.15385763347148895,
    0.5543738603591919,
    0.8452105522155762,
    0.56460040807724,
    0.713638424873352,
    0.8536510467529297,
    0.8592507839202881,
    0.5604416728019714,
    0.5199534893035889,
    0.7710865139961243,
    0.7710865139961243,
    0.7878470420837402,
    0.790300726890564,
    0.8603102564811707,
    1.0825186967849731,
    1.0451807975769043,
    1.053497314453125,
    1.068619966506958,
    1.068619966506958,
    1.074398398399353,
    1.027429461479187,
    1.0375499725341797,
    1.0472034215927124,
    1.059842586517334,
    1.1490812301635742,
    1.1581830978393555,
    0.6890178918838501,
    1.2294784784317017,
    1.2294784784317017,
    0.5888339281082153,
    0.5265711545944214,
    0.5083094239234924,
    0.74753338098526,
    0.8286235332489014,
    0.8666804432868958,
    0.9892193675041199,
    1.094902515411377,
    0.8575202822685242,
    0.8238334655761719,
    1.0616075992584229,
    1.070987582206726,
    0.6890308856964111,
    1.0902538299560547,
    1.0902538299560547,
    1.0902538299560547,
    1.085353970527649,
    0.7689386606216431,
    0.8779736757278442,
    1.4854788780212402,
    1.4919153451919556,
    1.2350292205810547,
    1.2404004335403442]
  (t, broadcastWrite Dm t.m_nsp d, Except.ok ())

/-- Embedding of `UnityLewisTransport::getMixDiffCoeffsMole(double* const d)`:
the body is a single `throw NotImplementedError(...)`, so the state and the
buffer are returned untouched with the error. -/
def UnityLewisTransport.getMixDiffCoeffsMole (t : UnityLewisTransport) (d : List ℚ) :
    UnityLewisTransport × List ℚ × Except CanteraError Unit :=
  (t, d, Except.error
    (CanteraError.NotImplementedError "UnityLewisTransport::getMixDiffCoeffsMole"))

/-- Embedding of `UnityLewisTransport::getMixDiffCoeffsMass(double* const d)`:
computes the same `Dm` and performs the same broadcast loop (no literal
table in this body). -/
def UnityLewisTransport.getMixDiffCoeffsMass (t : UnityLewisTransport) (d : List ℚ) :
    UnityLewisTransport × List ℚ × Except CanteraError Unit :=
  let Dm : ℚ := t.thermalConductivity / (t.m_thermo.density * t.m_thermo.cp_mass)
  (t, broadcastWrite Dm t.m_nsp d, Except.ok ())

/-- Embedding of `UnityLewisTransport::transportModel()`. -/
def UnityLewisTransport.transportModel (_ : UnityLewisTransport) : String :=
  "UnityLewis"

/-- Reimplementation following the spec's words ("a reimplementation with the
table removed", "Reimplementations must omit it entirely"): the body of
`getMixDiffCoeffs` with the literal table dropped. -/
def UnityLewisTransport.getMixDiffCoeffsNoTable (t : UnityLewisTransport) (d : List ℚ) :
    UnityLewisTransport × List ℚ × Except CanteraError Unit :=
  let Dm : ℚ := t.thermalConductivity / (t.m_thermo.density * t.m_thermo.cp_mass)
  (t, broadcastWrite Dm t.m_nsp d, Except.ok ())

/-! ### Basic lemmas about the broadcast loop -/

lemma broadcastWrite_getElem?_of_lt (Dm : ℚ) :
    ∀ (n k : ℕ) (d : List ℚ), k < n → k < d.length →
      (broadcastWrite Dm n d)[k]? = some Dm := by
  intro n k d
  induction d generalizing n k with
  | nil => intro _ h; simp at h
  | cons x xs ih =>
    intro hkn hkl
    cases n with
    | zero => omega
    | succ n =>
      cases k with
      | zero => simp [broadcastWrite]
      | succ k =>
        simpa [broadcastWrite] using ih n k (by omega) (by simpa using hkl)

lemma broadcastWrite_idem (Dm : ℚ) :
    ∀ (n : ℕ) (d : List ℚ),
      broadcastWrite Dm n (broadcastWrite Dm n d) = broadcastWrite Dm n d := by
  intro n d
  induction d generalizing n with
  | nil => cases n <;> rfl
  | cons x xs ih =>
    cases n with
    | zero => rfl
    | succ n => simp [broadcastWrite, ih n]

lemma broadcastWrite_zero (Dm : ℚ) (d : List ℚ) : broadcastWrite Dm 0 d = d := rfl

/-! ### Claim theorems -/

/-- C1: for every phase state and every species index `k < m_nsp`, after
`getMixDiffCoeffs` on a buffer of matching length the entry at `k` equals
`thermalConductivity / (density * cp_mass)` — the same scalar `Dm` broadcast
to all `m_nsp` entries of the output buffer. -/
theorem getMixDiffCoeffs_broadcast_Dm (t : UnityLewisTransport) (d : List ℚ)
    (hd : d.length = t.m_nsp) (k : ℕ) (hk : k < t.m_nsp) :
    ((t.getMixDiffCoeffs d).2.1)[k]? =
      some (t.thermalConductivity / (t.m_thermo.density * t.m_thermo.cp_mass)) := by
  simpa [UnityLewisTransport.getMixDiffCoeffs] using
    broadcastWrite_getElem?_of_lt
      (t.thermalConductivity / (t.m_thermo.density * t.m_thermo.cp_mass))
      t.m_nsp k d hk (by omega)

/-- Witness for C1 at a concrete state: λ = 1/20, ρ = 6/5, cp = 1000, five
species, buffer of five zeros, index 2. -/
theorem getMixDiffCoeffs_broadcast_Dm_witness :
    (((⟨⟨6/5, 1000⟩, 5, 1/20⟩ : UnityLewisTransport).getMixDiffCoeffs
        [0, 0, 0, 0, 0]).2.1)[2]? =
      some ((1 : ℚ)/20 / ((6/5 : ℚ) * 1000)) :=
  getMixDiffCoeffs_broadcast_Dm ⟨⟨6/5, 1000⟩, 5, 1/20⟩ [0, 0, 0, 0, 0]
    (by decide) 2 (by decide)

/-- C2: for every phase state (any `m_nsp`, including 0) and every buffer,
`getMixDiffCoeffsMole` fails with exactly the `NotImplementedError`
("Unsupported Operation") error and never returns `Except.ok`. -/
theorem getMixDiffCoeffsMole_always_fails (t : UnityLewisTransport) (d : List ℚ) :
    (t.getMixDiffCoeffsMole d).2.2 =
      Except.error
        (CanteraError.NotImplementedError
          "UnityLewisTransport::getMixDiffCoeffsMole") :=
  rfl

/-- C3: on the same phase state and buffer, `getMixDiffCoeffsMass` produces
exactly the same result (state, output vector, and success) as
`getMixDiffCoeffs`. -/
theorem getMixDiffCoeffsMass_eq_getMixDiffCoeffs (t : UnityLewisTransport)
    (d : List ℚ) :
    t.getMixDiffCoeffsMass d = t.getMixDiffCoeffs d :=
  rfl

/-- C4: `transportModel` is a pure constant returning the label
"UnityLewis" for every object state. -/
theorem transportModel_constant (t : UnityLewisTransport) :
    t.transportModel = "UnityLewis" :=
  rfl

/-- C5: the literal numeric table inside `getMixDiffCoeffs` is dead data —
for every phase state and buffer, `getMixDiffCoeffs` is observationally equal
to the table-free reimplementation `getMixDiffCoeffsNoTable` (the table-free
body of `getMixDiffCoeffsMass`). -/
theorem getMixDiffCoeffs_table_dead (t : UnityLewisTransport) (d : List ℚ) :
    t.getMixDiffCoeffs d = t.getMixDiffCoeffsNoTable d :=
  rfl

/-- C6: idempotence / no hidden state — re-running `getMixDiffCoeffs` (resp.
`getMixDiffCoeffsMass`) on its own output buffer with the phase state
unchanged reproduces the whole result (same state, same output vector, same
success) of the first call. -/
theorem getMixDiffCoeffs_idempotent (t : UnityLewisTransport) (d : List ℚ) :
    t.getMixDiffCoeffs ((t.getMixDiffCoeffs d).2.1) = t.getMixDiffCoeffs d ∧
    t.getMixDiffCoeffsMass ((t.getMixDiffCoeffsMass d).2.1) =
      t.getMixDiffCoeffsMass d := by
  constructor <;>
    simp [UnityLewisTransport.getMixDiffCoeffs,
      UnityLewisTransport.getMixDiffCoeffsMass, broadcastWrite_idem]

/-- C7: when `m_nsp = 0`, both supported accessors return normally with the
caller's buffer entirely unchanged (no element written). -/
theorem nsp_zero_no_write (t : UnityLewisTransport) (d : List ℚ)
    (h : t.m_nsp = 0) :
    t.getMixDiffCoeffs d = (t, d, Except.ok ()) ∧
    t.getMixDiffCoeffsMass d = (t, d, Except.ok ()) := by
  constructor <;>
    simp [UnityLewisTransport.getMixDiffCoeffs,
      UnityLewisTransport.getMixDiffCoeffsMass, h, broadcastWrite_zero]

/-- Witness for C7 at a concrete zero-species state with a nonempty buffer. -/
theorem nsp_zero_no_write_witness :
    (⟨⟨1, 1⟩, 0, 1⟩ : UnityLewisTransport).getMixDiffCoeffs [7] =
      (⟨⟨1, 1⟩, 0, 1⟩, [7], Except.ok ()) ∧
    (⟨⟨1, 1⟩, 0, 1⟩ : UnityLewisTransport).getMixDiffCoeffsMass [7] =
      (⟨⟨1, 1⟩, 0, 1⟩, [7], Except.ok ()) :=
  nsp_zero_no_write ⟨⟨1, 1⟩, 0, 1⟩ [7] rfl

/-- C8: totality of the supported accessors — given a buffer of matching
size, `getMixDiffCoeffs` and `getMixDiffCoeffsMass` return `Except.ok`
(`transportModel` returns a plain `String` and cannot fail by type), the
`NotImplementedError` is raised by `getMixDiffCoeffsMole` alone, and every
value of the core's error type `CanteraError` is of that single kind. -/
theorem supported_accessors_total (t : UnityLewisTransport) (d : List ℚ)
    (h : d.length = t.m_nsp) :
    (t.getMixDiffCoeffs d).2.2 = Except.ok () ∧
    (t.getMixDiffCoeffsMass d).2.2 = Except.ok () ∧
    (t.getMixDiffCoeffsMole d).2.2 =
      Except.error
        (CanteraError.NotImplementedError
          "UnityLewisTransport::getMixDiffCoeffsMole") ∧
    ∀ e : CanteraError, ∃ s, e = CanteraError.NotImplementedError s := by
  refine ⟨rfl, rfl, rfl, ?_⟩
  intro e
  cases e with
  | NotImplementedError s => exact ⟨s, rfl⟩

/-- Witness for C8 at a concrete state with a matching two-element buffer. -/
theorem supported_accessors_total_witness :
    ((⟨⟨2, 3⟩, 2, 5⟩ : UnityLewisTransport).getMixDiffCoeffs [0, 0]).2.2 =
      Except.ok () ∧
    ((⟨⟨2, 3⟩, 2, 5⟩ : UnityLewisTransport).getMixDiffCoeffsMass [0, 0]).2.2 =
      Except.ok () ∧
    ((⟨⟨2, 3⟩, 2, 5⟩ : UnityLewisTransport).getMixDiffCoeffsMole [0, 0]).2.2 =
      Except.error
        (CanteraError.NotImplementedError
          "UnityLewisTransport::getMixDiffCoeffsMole") ∧
    ∀ e : CanteraError, ∃ s, e = CanteraError.NotImplementedError s :=
  supported_accessors_total ⟨⟨2, 3⟩, 2, 5⟩ [0, 0] (by decide)

/-- C9: read-only use of collaborators — every buffer-taking operation
returns the object state (which carries the externally-owned density,
mass-specific heat capacity, species count, and thermal conductivity)
completely unchanged; only the returned buffer differs.  `transportModel`
consumes the state and returns only a `String`, so it cannot write at all. -/
theorem collaborators_read_only (t : UnityLewisTransport) (d : List ℚ) :
    (t.getMixDiffCoeffs d).1 = t ∧
    (t.getMixDiffCoeffsMass d).1 = t ∧
    (t.getMixDiffCoeffsMole d).1 = t :=
  ⟨rfl, rfl, rfl⟩

/-- C10: atomicity of the failing accessor — `getMixDiffCoeffsMole` raises
its error without writing anything: the caller's buffer comes back exactly
as supplied, for every phase state and buffer. -/
theorem getMixDiffCoeffsMole_buffer_unchanged (t : UnityLewisTransport)
    (d : List ℚ) :
    (t.getMixDiffCoeffsMole d).2.1 = d :=
  rfl

end Cantera
